import Mathlib

/-!
Verification of the Instagram-Influencer-Analytics media-analysis engine and
frontend helpers.

The repository's backend (a Python/FastAPI service using OpenCV, per the
README) is not present in the source tree; only the frontend
(`frontend/src/services/api.ts`, `frontend/src/pages/ProfilePage.tsx`) and
documentation are.  The analysis engine — decoder, statistics extractor,
classifier and result assembler — is therefore modelled from the
specification (spec sections 3, 4, 6, 7).  Frontend helpers (`proxyImage`,
the post-card rendering, the simulated demographics) are embedded directly
from the TypeScript source.

All real-valued statistics are modelled with exact rationals.
-/

namespace InstaAnalytics

/-- An RGB pixel with 8-bit unsigned samples, from spec section 4.1
(pixel array of 3-channel 8-bit samples). -/
structure Pixel where
  r : Nat
  g : Nat
  b : Nat
deriving DecidableEq, Repr

/-- Modelled from the spec (section 4.1): the decoder's output, a pixel
array with known height and width, row-major. -/
structure DecodedImage where
  width : Nat
  height : Nat
  pixels : List Pixel
deriving DecidableEq, Repr

/-- Modelled from the spec (section 7): `DecodeError` — malformed, empty,
truncated, or unsupported-format input. -/
inductive DecodeError where
  | emptyInput
  | badHeader
  | zeroDimensions
  | truncatedBody
deriving DecidableEq, Repr

/-- Modelled from the spec (section 7): `AssemblyError` — internal contract
violation of the classifier's output, should be unreachable. -/
inductive AssemblyError where
  | invalidOutput
deriving DecidableEq, Repr

/-- The engine's failure taxonomy (spec section 4.4: terminal states are
`Success(AnalysisResult)` or `Failure(DecodeError | AssemblyError)`). -/
inductive AnalyzeError where
  | decode (e : DecodeError)
  | assembly (e : AssemblyError)
deriving DecidableEq, Repr

/-- Magic bytes of the modelled image container ("IM"). The real backend
accepts JPEG/PNG; the spec only requires a recognizable container header,
so the model uses a minimal one: magic, width byte, height byte, then
3 bytes (R,G,B) per pixel in row-major order. -/
def magicBytes : List Nat := [73, 77]

/-- Group a raw body into RGB pixels, three bytes per pixel; a trailing
fragment shorter than one pixel is ignored (the decoder only ever passes a
body of exactly the required length). -/
def parsePixels : List Nat → List Pixel
  | r :: g :: b :: rest => ⟨r, g, b⟩ :: parsePixels rest
  | _ => []

/-- Modelled from the spec (section 4.1): the Image Decoder.  Fails with
`DecodeError` when bytes are empty, when the container header is not
recognized, when the declared dimensions are degenerate, or when the body
is truncated (shorter than 3·width·height samples). -/
def decodeImage : List Nat → Except DecodeError DecodedImage
  | [] => .error .emptyInput
  | m1 :: m2 :: w :: h :: body =>
    if m1 = 73 ∧ m2 = 77 then
      if w = 0 ∨ h = 0 then .error .zeroDimensions
      else if body.length < 3 * (w * h) then .error .truncatedBody
      else .ok ⟨w, h, parsePixels (body.take (3 * (w * h)))⟩
    else .error .badHeader
  | _ => .error .badHeader

/-- Modelled from the spec (section 3): the `PixelStatistics` record. -/
structure PixelStatistics where
  meanBrightness : ℚ
  meanSaturation : ℚ
  warmthScore : ℚ
  edgeVariance : ℚ
  flatness : ℚ
deriving DecidableEq, Repr

/-- HSV value channel of a pixel: the maximum of the three samples. -/
def pixelV (p : Pixel) : Nat := max p.r (max p.g p.b)

/-- Minimum channel of a pixel (used for HSV saturation). -/
def pixelMinC (p : Pixel) : Nat := min p.r (min p.g p.b)

/-- HSV saturation of a pixel in [0,1]: (max−min)/max, and 0 for black. -/
def pixelSaturation (p : Pixel) : ℚ :=
  if pixelV p = 0 then 0
  else ((pixelV p : ℚ) - (pixelMinC p : ℚ)) / (pixelV p : ℚ)

/-- Grayscale (luma) of a pixel: channel average. -/
def pixelLuma (p : Pixel) : ℚ := ((p.r : ℚ) + (p.g : ℚ) + (p.b : ℚ)) / 3

/-- Arithmetic mean of a list of rationals, 0 for the empty list. -/
def listMean (xs : List ℚ) : ℚ :=
  if xs.length = 0 then 0 else xs.sum / (xs.length : ℚ)

/-- Statistical variance of a list of rationals: mean squared deviation
from the mean, 0 for the empty list. -/
def listVariance (xs : List ℚ) : ℚ :=
  listMean (xs.map (fun x => (x - listMean xs) ^ 2))

/-- Modelled from the spec (section 4.2): discrete Laplacian response over
the grayscale sequence, the 1-D Laplacian kernel (1, −2, 1) applied at
every interior sample of the row-major grayscale image. -/
def laplacianResponses : List ℚ → List ℚ
  | a :: b :: c :: rest => (a - 2 * b + c) :: laplacianResponses (b :: c :: rest)
  | _ => []

/-- Number of occurrences of a pixel value in a pixel list. -/
def countPixel (ps : List Pixel) (p : Pixel) : Nat :=
  (ps.filter (fun q => q = p)).length

/-- Modal (most frequent) pixel of a list, the first maximizer scanning
left to right; black for the empty list. -/
def modalPixel : List Pixel → Pixel
  | [] => ⟨0, 0, 0⟩
  | p :: ps =>
    (p :: ps).foldl
      (fun best q => if countPixel (p :: ps) best < countPixel (p :: ps) q then q else best) p

/-- Per-channel tolerance for counting a pixel as matching the modal
color. -/
def flatTolerance : Nat := 10

/-- Whether two pixels agree channel-wise within `flatTolerance`. -/
def nearPixel (p q : Pixel) : Bool :=
  (max p.r q.r - min p.r q.r ≤ flatTolerance) &&
  (max p.g q.g - min p.g q.g ≤ flatTolerance) &&
  (max p.b q.b - min p.b q.b ≤ flatTolerance)

/-- Modelled from the spec (section 4.2): flatness is the fraction of
pixels within a small tolerance of the image's modal color. -/
def flatnessOf (ps : List Pixel) : ℚ :=
  if ps.length = 0 then 0
  else ((ps.filter (fun q => nearPixel (modalPixel ps) q)).length : ℚ) / (ps.length : ℚ)

/-- Modelled from the spec (section 4.2): the Statistics Extractor.
`meanBrightness` is the mean HSV value channel, `meanSaturation` the mean
HSV saturation, `warmthScore` is mean(R) + mean(G)·0.5 − mean(B),
`edgeVariance` the variance of the Laplacian response over the grayscale
image, and `flatness` the modal-color fraction. -/
def extractStats (img : DecodedImage) : PixelStatistics :=
  let ps := img.pixels
  { meanBrightness := listMean (ps.map (fun p => (pixelV p : ℚ)))
    meanSaturation := listMean (ps.map pixelSaturation)
    warmthScore :=
      listMean (ps.map (fun p => (p.r : ℚ))) +
        listMean (ps.map (fun p => (p.g : ℚ))) / 2 -
        listMean (ps.map (fun p => (p.b : ℚ)))
    edgeVariance := listVariance (laplacianResponses (ps.map pixelLuma))
    flatness := flatnessOf ps }

/-- Warmth threshold (spec section 9: named policy constant). -/
def T_warm : ℚ := 20

/-- Brightness threshold for the "bright" keyword. -/
def T_bright : ℚ := 170

/-- Flatness threshold for the "minimal" keyword. -/
def T_flat : ℚ := 7 / 10

/-- Edge-variance threshold for the "busy" keyword. -/
def T_busy : ℚ := 100

/-- Saturation threshold for the "vibrant" keyword. -/
def T_vibrant : ℚ := 1 / 2

/-- Edge-variance threshold for quality "sharp". -/
def T_sharp : ℚ := 100

/-- Edge-variance threshold separating "soft" from "blurry". -/
def T_blur : ℚ := 20

/-- Low-brightness threshold used by the vibe table. -/
def T_dark : ℚ := 80

/-- Low-saturation threshold used by the vibe table. -/
def T_dull : ℚ := 1 / 5

/-- The fixed vibe enumeration (spec section 3). -/
def vibeEnum : List String := ["energetic", "calm", "moody", "neutral"]

/-- The fixed quality enumeration (spec section 3). -/
def qualityEnum : List String := ["sharp", "soft", "blurry"]

/-- The fixed keyword vocabulary (spec section 3). -/
def keywordVocab : List String := ["warm", "cool", "bright", "vibrant", "minimal", "busy"]

/-- Modelled from the spec (section 4.3, vibe rows of the classification
table): brightness and saturation both high gives "energetic"; both low
gives "moody"; high flatness with mid brightness gives "calm"; otherwise
"neutral". -/
def vibeOf (s : PixelStatistics) : String :=
  if T_bright < s.meanBrightness ∧ T_vibrant < s.meanSaturation then "energetic"
  else if s.meanBrightness < T_dark ∧ s.meanSaturation < T_dull then "moody"
  else if T_flat < s.flatness ∧ T_dark ≤ s.meanBrightness ∧ s.meanBrightness ≤ T_bright then
    "calm"
  else "neutral"

/-- Modelled from the spec (section 4.3, quality rows): edge variance above
`T_sharp` is "sharp", between `T_blur` (exclusive) and `T_sharp` is
"soft", at or below `T_blur` is "blurry". -/
def qualityOf (s : PixelStatistics) : String :=
  if T_sharp < s.edgeVariance then "sharp"
  else if T_blur < s.edgeVariance then "soft"
  else "blurry"

/-- Modelled from the spec (section 4.3, keyword rows): the keyword
conditions listed in the fixed priority order warmth/cool > bright >
vibrant > minimal/busy.  "busy" fires only when flatness is at most
`T_flat` and edge variance exceeds `T_busy`. -/
def keywordCandidates (s : PixelStatistics) : List String :=
  (if T_warm < s.warmthScore then ["warm"] else []) ++
  (if s.warmthScore < -T_warm then ["cool"] else []) ++
  (if T_bright < s.meanBrightness then ["bright"] else []) ++
  (if T_vibrant < s.meanSaturation then ["vibrant"] else []) ++
  (if T_flat < s.flatness then ["minimal"]
   else if T_busy < s.edgeVariance then ["busy"] else [])

/-- Modelled from the spec (section 4.3): the keyword set is capped at 4
entries; the fixed priority order decides which survive. -/
def keywordsOf (s : PixelStatistics) : List String :=
  (keywordCandidates s).take 4

/-- The output record of one analysis (spec section 3, `AnalysisResult`). -/
structure AnalysisResult where
  keywords : List String
  vibe : String
  quality : String
deriving DecidableEq, Repr

/-- Modelled from the spec (section 4.4): the Analysis Result Assembler,
performing only structural validation (keyword set size at most 4, vibe
and quality in their enumerations) and failing with `AssemblyError` only
on a classifier contract violation. -/
def assembleResult (kws : List String) (v q : String) : Except AssemblyError AnalysisResult :=
  if kws.length ≤ 4 ∧ v ∈ vibeEnum ∧ q ∈ qualityEnum then .ok ⟨kws, v, q⟩
  else .error .invalidOutput

/-- Modelled from the spec (section 6): the engine's single operation,
the linear pipeline Decode → Extract → Classify → Assemble, a pure
function of the input bytes. -/
def analyze (bytes : List Nat) : Except AnalyzeError AnalysisResult :=
  match decodeImage bytes with
  | .error e => .error (.decode e)
  | .ok img =>
    let s := extractStats img
    match assembleResult (keywordsOf s) (vibeOf s) (qualityOf s) with
    | .error e => .error (.assembly e)
    | .ok r => .ok r

/-- A solid-color image: all pixels identical. -/
def solidImage (w h r g b : Nat) : DecodedImage :=
  ⟨w, h, List.replicate (w * h) ⟨r, g, b⟩⟩

/-- Encoded bytes of a solid-color image in the modelled container. -/
def solidBytes (w h r g b : Nat) : List Nat :=
  73 :: 77 :: w :: h :: (List.replicate (w * h) [r, g, b]).flatten

/-- The `Post` record of `frontend/src/services/api.ts` (lines 12-22);
optional fields are `Option`, counts are naturals. -/
structure Post where
  id : Nat
  image_url : String
  caption : Option String
  likes : Nat
  comments : Nat
  posted_at : Option String
  keywords : Option (List String)
  vibe : Option String
  quality : Option String
deriving DecidableEq, Repr

/-- The analysis-related parts of a post card as rendered by
`ProfilePage.tsx` lines 388-443: up to four keyword badges
(`p.keywords.slice(0, 4)`), a "+n" overflow badge, the vibe badge when
present, and the quality text when present. -/
structure PostCardLabels where
  keywordBadges : List String
  overflowCount : Nat
  vibeBadge : Option String
  qualityText : Option String
deriving DecidableEq, Repr

/-- Embeds the post-card rendering of `ProfilePage.tsx` lines 388-443: it
reads only the persisted `keywords`/`vibe`/`quality` fields of the post
record. -/
def renderPostLabels (p : Post) : PostCardLabels :=
  let kws := p.keywords.getD []
  { keywordBadges := kws.take 4
    overflowCount := kws.length - 4
    vibeBadge := p.vibe
    qualityText := p.quality }

/-- The Analyze-Post click handler of `ProfilePage.tsx` lines 402-412:
`await analyzePost(p.id); await load();`.  The HTTP response of
`analyzePost` is discarded; the card is re-rendered from the re-fetched
persisted post record alone.  `response` stands for whatever the backend
endpoint returned and `reloaded` for the post record returned by the
subsequent `load()`. -/
def analyzeClickLabels (_response : Option (List String) × Option String × Option String)
    (reloaded : Post) : PostCardLabels :=
  renderPostLabels reloaded

/-- UTF-8 encoding of a single character as byte values. -/
def utf8Bytes (c : Char) : List Nat :=
  let n := c.toNat
  if n < 128 then [n]
  else if n < 2048 then [192 + n / 64, 128 + n % 64]
  else if n < 65536 then [224 + n / 4096, 128 + (n / 64) % 64, 128 + n % 64]
  else [240 + n / 262144, 128 + (n / 4096) % 64, 128 + (n / 64) % 64, 128 + n % 64]

/-- Uppercase hexadecimal digit for a value below 16. -/
def hexDigit (n : Nat) : Char :=
  if n < 10 then Char.ofNat (48 + n) else Char.ofNat (55 + n)

/-- Percent-encoding of one byte value. -/
def percentByte (b : Nat) : List Char :=
  ['%', hexDigit (b / 16), hexDigit (b % 16)]

/-- Characters JavaScript's `encodeURIComponent` leaves unescaped. -/
def uriUnreserved (c : Char) : Bool :=
  c.isAlphanum || c = '-' || c = '_' || c = '.' || c = '!' ||
    c = '~' || c = '*' || c = Char.ofNat 39 || c = '(' || c = ')'

/-- JavaScript's `encodeURIComponent`: unreserved characters pass through,
every other character is replaced by the percent-encoding of its UTF-8
bytes. -/
def encodeURIComponent (s : String) : String :=
  String.mk ((s.toList.map (fun c =>
    if uriUnreserved c then [c] else (utf8Bytes c).map percentByte |>.flatten)).flatten)

/-- Whether `needle` is a prefix of `hay` (character lists). -/
def listStartsWith : List Char → List Char → Bool
  | _, [] => true
  | [], _ :: _ => false
  | a :: hay, b :: needle => a = b && listStartsWith hay needle

/-- Whether `needle` occurs contiguously anywhere in `hay`, as JavaScript's
`String.prototype.includes`. -/
def listHasSub : List Char → List Char → Bool
  | hay, needle =>
    match hay with
    | [] => needle.isEmpty
    | _ :: t => listStartsWith hay needle || listHasSub t needle

/-- String form of `listHasSub`. -/
def strHasSub (hay needle : String) : Bool :=
  listHasSub hay.toList needle.toList

/-- The CDN-host test of `proxyImage` (`ProfilePage.tsx` lines 10-15). -/
def isProxiedHost (u : String) : Bool :=
  strHasSub u "cdninstagram.com" || strHasSub u "instagram.com" ||
    strHasSub u "fbcdn.net" || strHasSub u "fna.fbcdn.net"

/-- Embeds `proxyImage` of `ProfilePage.tsx` lines 5-19, parametrized by
`API_BASE` (an environment-dependent constant in `api.ts`).  `none` models
an `undefined` argument; the JavaScript guard `if (!url)` is also taken by
the empty string. -/
def proxyImage (apiBase : String) (url : Option String) : String :=
  match url with
  | none => ""
  | some u =>
    if u = "" then ""
    else if isProxiedHost u then
      apiBase ++ "/proxy-image?url=" ++ encodeURIComponent u
    else u

/-- JavaScript's remainder `x % y` for nonnegative `x` and positive `y`
(sign of the dividend, here nonnegative). -/
def jsMod (x y : ℚ) : ℚ := x - y * (⌊x / y⌋ : ℤ)

/-- JavaScript's `Math.round`: floor of x + 1/2 (ties toward +∞). -/
def jsRound (x : ℚ) : ℤ := ⌊x + 1 / 2⌋

/-- The average-likes computation of the `demographics` memo
(`ProfilePage.tsx` line 152): sum of likes over `max 1 (number of posts)`.
JavaScript floating point is modelled by exact rationals. -/
def avgLikes (posts : List Post) : ℚ :=
  ((posts.map Post.likes).sum : ℚ) / (max 1 posts.length : ℚ)

/-- The simulated gender split of the `demographics` memo
(`ProfilePage.tsx` lines 154-155):
`male = Math.max(30, Math.min(70, 40 + Math.round(avgLikes % 30)))` and
`female = 100 - male`. -/
def genderSplit (posts : List Post) : ℤ × ℤ :=
  let male := max 30 (min 70 (40 + jsRound (jsMod (avgLikes posts) 30)))
  (male, 100 - male)

/-! ### Helper lemmas -/

/-- The vibe classifier always lands in the fixed enumeration. -/
theorem vibeOf_mem (s : PixelStatistics) : vibeOf s ∈ vibeEnum := by
  unfold vibeOf vibeEnum
  split_ifs <;> simp

/-- The quality classifier always lands in the fixed enumeration. -/
theorem qualityOf_mem (s : PixelStatistics) : qualityOf s ∈ qualityEnum := by
  unfold qualityOf qualityEnum
  split_ifs <;> simp

/-- The keyword set is capped at four entries. -/
theorem keywordsOf_length_le (s : PixelStatistics) : (keywordsOf s).length ≤ 4 := by
  unfold keywordsOf
  simp [List.length_take]

/-- The assembler's defensive check always passes on the classifier's
output. -/
theorem assembleResult_ok (s : PixelStatistics) :
    assembleResult (keywordsOf s) (vibeOf s) (qualityOf s) =
      .ok ⟨keywordsOf s, vibeOf s, qualityOf s⟩ := by
  unfold assembleResult
  rw [if_pos ⟨keywordsOf_length_le s, vibeOf_mem s, qualityOf_mem s⟩]

/-- `analyze` on successfully decoded bytes is the classifier applied to
the extracted statistics. -/
theorem analyze_of_decode_ok {bytes : List Nat} {img : DecodedImage}
    (hdec : decodeImage bytes = .ok img) :
    analyze bytes =
      .ok ⟨keywordsOf (extractStats img), vibeOf (extractStats img),
           qualityOf (extractStats img)⟩ := by
  unfold analyze
  rw [hdec]
  simp only []
  rw [assembleResult_ok]

/-- A replicated three-byte chunk flattens to `3 * n` bytes. -/
theorem flatten_replicate3_length (n r g b : Nat) :
    ((List.replicate n [r, g, b]).flatten).length = 3 * n := by
  induction n with
  | zero => rfl
  | succ m ih =>
    rw [List.replicate_succ, List.flatten_cons, List.length_append, ih]
    simp
    ring

/-- Parsing a replicated three-byte chunk yields the replicated pixel. -/
theorem parsePixels_replicate (n r g b : Nat) :
    parsePixels ((List.replicate n [r, g, b]).flatten) =
      List.replicate n (⟨r, g, b⟩ : Pixel) := by
  induction n with
  | zero => rfl
  | succ m ih =>
    rw [List.replicate_succ, List.flatten_cons, List.replicate_succ]
    simpa [parsePixels] using ih

/-- The modelled decoder accepts the solid-image encoding. -/
theorem decodeImage_solid (w h r g b : Nat) (hw : 0 < w) (hh : 0 < h) :
    decodeImage (solidBytes w h r g b) = .ok (solidImage w h r g b) := by
  have hlen := flatten_replicate3_length (w * h) r g b
  unfold solidBytes
  simp only [decodeImage]
  rw [if_pos ⟨trivial, trivial⟩, if_neg (by omega), hlen, if_neg (by omega)]
  unfold solidImage
  congr 1
  rw [← hlen, List.take_length, parsePixels_replicate]

/-- The Laplacian response over a constant sequence vanishes pointwise. -/
theorem laplacianResponses_const {c : ℚ} :
    ∀ l : List ℚ, (∀ x ∈ l, x = c) → ∀ y ∈ laplacianResponses l, y = 0 := by
  intro l
  induction l using laplacianResponses.induct with
  | case1 a b d rest ih =>
    intro hall y hy
    rw [laplacianResponses] at hy
    rcases List.mem_cons.mp hy with h | h
    · have ha := hall a (by simp)
      have hb := hall b (by simp)
      have hd := hall d (by simp)
      rw [ha, hb, hd] at h
      rw [h]; ring
    · exact ih (fun x hx => hall x (List.mem_cons_of_mem a hx)) y h
  | case2 l h1 =>
    intro _ y hy
    rw [laplacianResponses] at hy
    · simp at hy
    · exact h1

/-- The mean of an all-zero list is zero. -/
theorem listMean_eq_zero {xs : List ℚ} (h : ∀ x ∈ xs, x = 0) : listMean xs = 0 := by
  unfold listMean
  split_ifs with hl
  · rfl
  · rw [List.sum_eq_zero h, zero_div]

/-- The variance of an all-zero list is zero. -/
theorem listVariance_eq_zero {xs : List ℚ} (h : ∀ x ∈ xs, x = 0) :
    listVariance xs = 0 := by
  unfold listVariance
  apply listMean_eq_zero
  intro y hy
  rcases List.mem_map.mp hy with ⟨a, ha, rfl⟩
  rw [h a ha, listMean_eq_zero h]
  ring

/-- Folding the modal-selection step over a list of copies of the
accumulator leaves the accumulator unchanged. -/
theorem foldl_modal_const (f : Pixel → Pixel → Pixel)
    (hf : ∀ b, f b b = b) :
    ∀ (l : List Pixel) (p : Pixel), (∀ x ∈ l, x = p) → l.foldl f p = p := by
  intro l
  induction l with
  | nil => intro p _; rfl
  | cons a t ih =>
    intro p hall
    have ha : a = p := hall a (by simp)
    rw [List.foldl_cons, ha, hf]
    exact ih p (fun x hx => hall x (List.mem_cons_of_mem a hx))

/-- The modal pixel of a nonempty constant list is that constant. -/
theorem modalPixel_replicate (n : Nat) (p : Pixel) (hn : 0 < n) :
    modalPixel (List.replicate n p) = p := by
  obtain ⟨m, rfl⟩ : ∃ m, n = m + 1 := ⟨n - 1, by omega⟩
  rw [List.replicate_succ]
  unfold modalPixel
  apply foldl_modal_const
  · intro b
    split_ifs <;> rfl
  · intro x hx
    rcases List.mem_cons.mp hx with h | h
    · exact h
    · exact List.eq_of_mem_replicate h

/-- A pixel is within tolerance of itself. -/
theorem nearPixel_self (p : Pixel) : nearPixel p p = true := by
  unfold nearPixel flatTolerance
  simp

/-- The flatness of a nonempty constant pixel list is exactly 1. -/
theorem flatnessOf_replicate (n : Nat) (p : Pixel) (hn : 0 < n) :
    flatnessOf (List.replicate n p) = 1 := by
  unfold flatnessOf
  rw [if_neg (by simp; omega)]
  rw [modalPixel_replicate n p hn]
  have hfil : (List.replicate n p).filter (fun q => nearPixel p q) = List.replicate n p := by
    apply List.filter_eq_self.mpr
    intro a ha
    rw [List.eq_of_mem_replicate ha]
    exact nearPixel_self p
  rw [hfil, List.length_replicate]
  rw [div_self]
  have : n ≠ 0 := by omega
  exact_mod_cast this

/-- Edge variance of a solid-color image is zero. -/
theorem edgeVariance_solid (w h r g b : Nat) :
    (extractStats (solidImage w h r g b)).edgeVariance = 0 := by
  unfold extractStats solidImage
  simp only [List.map_replicate]
  apply listVariance_eq_zero
  apply laplacianResponses_const (List.replicate (w * h) (pixelLuma ⟨r, g, b⟩))
  intro x hx
  exact List.eq_of_mem_replicate hx

/-- The "warm" and "cool" conditions cannot fire together. -/
theorem warm_cool_exclusive (s : PixelStatistics) :
    ¬(T_warm < s.warmthScore ∧ s.warmthScore < -T_warm) := by
  rintro ⟨h1, h2⟩
  unfold T_warm at h1 h2
  linarith

/-- When the flatness condition fires, "minimal" survives the cap of 4:
at most three higher-priority keywords can fire at once. -/
theorem minimal_mem_keywordsOf (s : PixelStatistics) (hf : T_flat < s.flatness) :
    "minimal" ∈ keywordsOf s := by
  unfold keywordsOf keywordCandidates
  rw [if_pos hf]
  by_cases hw : T_warm < s.warmthScore
  · have hc : ¬ s.warmthScore < -T_warm := fun hcc => warm_cool_exclusive s ⟨hw, hcc⟩
    rw [if_pos hw, if_neg hc]
    by_cases hb : T_bright < s.meanBrightness <;>
      by_cases hv : T_vibrant < s.meanSaturation <;>
        simp [hb, hv]
  · rw [if_neg hw]
    by_cases hc : s.warmthScore < -T_warm <;>
      by_cases hb : T_bright < s.meanBrightness <;>
        by_cases hv : T_vibrant < s.meanSaturation <;>
          simp [hc, hb, hv]

/-- Zero edge variance classifies as "blurry". -/
theorem qualityOf_zero_edge (s : PixelStatistics) (h : s.edgeVariance = 0) :
    qualityOf s = "blurry" := by
  unfold qualityOf T_sharp T_blur
  rw [h]
  norm_num

/-- Without high saturation, the "vibrant" keyword is never produced. -/
theorem vibrant_not_mem (s : PixelStatistics) (hs : ¬ T_vibrant < s.meanSaturation) :
    "vibrant" ∉ keywordsOf s := by
  intro hmem
  have h2 : "vibrant" ∈ keywordCandidates s := List.take_subset 4 _ hmem
  unfold keywordCandidates at h2
  rw [if_neg hs] at h2
  split_ifs at h2 <;> revert h2 <;> decide

/-- Membership in a conditional singleton forces the value. -/
theorem mem_ite_singleton {k a : String} {c : Prop} [Decidable c]
    (h : k ∈ (if c then [a] else [])) : k = a := by
  split_ifs at h
  · simpa using h
  · simp at h

/-- Every produced keyword belongs to the fixed vocabulary. -/
theorem keywordsOf_subset_vocab (s : PixelStatistics) :
    ∀ k ∈ keywordsOf s, k ∈ keywordVocab := by
  intro k hk
  have h2 : k ∈ keywordCandidates s := List.take_subset 4 _ hk
  unfold keywordCandidates at h2
  simp only [List.mem_append] at h2
  rcases h2 with (((h | h) | h) | h) | h
  · rw [mem_ite_singleton h]; decide
  · rw [mem_ite_singleton h]; decide
  · rw [mem_ite_singleton h]; decide
  · rw [mem_ite_singleton h]; decide
  · split_ifs at h
    · rw [show k = "minimal" by simpa using h]; decide
    · rw [show k = "busy" by simpa using h]; decide
    · simp at h

/-- A pixel with equal channels has zero HSV saturation. -/
theorem pixelSaturation_gray (p : Pixel) (hg : p.r = p.g ∧ p.g = p.b) :
    pixelSaturation p = 0 := by
  obtain ⟨h1, h2⟩ := hg
  unfold pixelSaturation pixelV pixelMinC
  rw [← h2, ← h1, Nat.max_self, Nat.max_self, Nat.min_self, Nat.min_self]
  split_ifs
  · rfl
  · rw [sub_self, zero_div]

/-- A fully grayscale image has zero mean saturation. -/
theorem meanSaturation_gray (img : DecodedImage)
    (hg : ∀ p ∈ img.pixels, p.r = p.g ∧ p.g = p.b) :
    (extractStats img).meanSaturation = 0 := by
  unfold extractStats
  apply listMean_eq_zero
  intro x hx
  rcases List.mem_map.mp hx with ⟨p, hp, rfl⟩
  exact pixelSaturation_gray p (hg p hp)

/-- Concrete evaluation of the pipeline on a one-pixel solid image. -/
theorem analyze_solid_10_20_30 :
    analyze (solidBytes 1 1 10 20 30) =
      .ok ⟨["vibrant", "minimal"], "neutral", "blurry"⟩ := by
  norm_num [analyze, solidBytes, decodeImage, parsePixels, extractStats, assembleResult,
    keywordsOf, keywordCandidates, vibeOf, qualityOf, vibeEnum, qualityEnum,
    listMean, listVariance, laplacianResponses, flatnessOf, modalPixel, countPixel,
    nearPixel, flatTolerance, pixelSaturation, pixelV, pixelMinC, pixelLuma,
    T_warm, T_bright, T_flat, T_busy, T_vibrant, T_sharp, T_blur, T_dark, T_dull,
    List.replicate, List.filter, List.foldl]

/-- Concrete evaluation of the pipeline on a one-pixel gray image. -/
theorem analyze_solid_5_5_5 :
    analyze (solidBytes 1 1 5 5 5) = .ok ⟨["minimal"], "moody", "blurry"⟩ := by
  norm_num [analyze, solidBytes, decodeImage, parsePixels, extractStats, assembleResult,
    keywordsOf, keywordCandidates, vibeOf, qualityOf, vibeEnum, qualityEnum,
    listMean, listVariance, laplacianResponses, flatnessOf, modalPixel, countPixel,
    nearPixel, flatTolerance, pixelSaturation, pixelV, pixelMinC, pixelLuma,
    T_warm, T_bright, T_flat, T_busy, T_vibrant, T_sharp, T_blur, T_dark, T_dull,
    List.replicate, List.filter, List.foldl]

/-! ### Claim theorems -/

/-- Claim C1: for every input byte sequence, any two calls to `analyze` on
that same sequence yield identical `AnalysisResult` values — the engine is
a deterministic pure function of its input bytes. -/
theorem analyze_deterministic (b1 b2 : List Nat) (h : b1 = b2) :
    analyze b1 = analyze b2 :=
  congrArg analyze h

/-- Witness for claim C1 at a concrete byte sequence. -/
theorem analyze_deterministic_witness :
    solidBytes 1 1 10 20 30 = solidBytes 1 1 10 20 30 ∧
    analyze (solidBytes 1 1 10 20 30) = analyze (solidBytes 1 1 10 20 30) :=
  ⟨rfl, analyze_deterministic (solidBytes 1 1 10 20 30) (solidBytes 1 1 10 20 30) rfl⟩

/-- Claim C2: for every value of the input `PixelStatistics`, the
classifier produces exactly one vibe label and exactly one quality label —
the produced label occurs exactly once in its fixed enumeration, never
zero times and never more than once. -/
theorem classifier_totality (s : PixelStatistics) :
    vibeEnum.count (vibeOf s) = 1 ∧ qualityEnum.count (qualityOf s) = 1 := by
  constructor
  · unfold vibeOf
    split_ifs <;> decide
  · unfold qualityOf
    split_ifs <;> decide

/-- Claim C3: the keyword list always has length between 0 and 4
inclusive, it is exactly the first four survivors of the fixed
priority-ordered condition list, and every keyword is drawn from the fixed
vocabulary. -/
theorem keywords_capped_priority (s : PixelStatistics) :
    (keywordsOf s).length ≤ 4 ∧
    keywordsOf s = (keywordCandidates s).take 4 ∧
    ∀ k ∈ keywordsOf s, k ∈ keywordVocab :=
  ⟨keywordsOf_length_le s, rfl, keywordsOf_subset_vocab s⟩

/-- Witness for claim C2 at a concrete statistics record. -/
theorem classifier_totality_witness :
    vibeEnum.count (vibeOf ⟨5, 0, 0, 0, 1⟩) = 1 ∧
    qualityEnum.count (qualityOf ⟨5, 0, 0, 0, 1⟩) = 1 :=
  classifier_totality ⟨5, 0, 0, 0, 1⟩

/-- Witness for claim C3 at a concrete statistics record whose keyword
set is nonempty. -/
theorem keywords_capped_priority_witness :
    (keywordsOf ⟨5, 0, 0, 0, 1⟩).length ≤ 4 ∧
    keywordsOf ⟨5, 0, 0, 0, 1⟩ = (keywordCandidates ⟨5, 0, 0, 0, 1⟩).take 4 ∧
    "minimal" ∈ keywordsOf ⟨5, 0, 0, 0, 1⟩ ∧
    "minimal" ∈ keywordVocab := by
  have hmem : "minimal" ∈ keywordsOf ⟨5, 0, 0, 0, 1⟩ := by
    norm_num [keywordsOf, keywordCandidates, T_warm, T_bright, T_vibrant, T_flat, T_busy]
  exact ⟨(keywords_capped_priority ⟨5, 0, 0, 0, 1⟩).1,
    (keywords_capped_priority ⟨5, 0, 0, 0, 1⟩).2.1, hmem,
    (keywords_capped_priority ⟨5, 0, 0, 0, 1⟩).2.2 "minimal" hmem⟩

/-- Claim C4: an empty byte buffer, and any buffer with a valid image
header but a truncated body, make `analyze` fail with a `DecodeError`; no
`AnalysisResult` (not even a partial one) is produced, as the `Except`
return carries no result fields in the error case. -/
theorem analyze_corrupt_input_fails :
    analyze [] = .error (.decode .emptyInput) ∧
    ∀ w h body, 0 < w → 0 < h → body.length < 3 * (w * h) →
      analyze (magicBytes ++ w :: h :: body) = .error (.decode .truncatedBody) := by
  constructor
  · rfl
  · intro w h body hw hh hlen
    show analyze (73 :: 77 :: w :: h :: body) = _
    have hdec : decodeImage (73 :: 77 :: w :: h :: body) = .error .truncatedBody := by
      simp only [decodeImage]
      rw [if_pos ⟨trivial, trivial⟩, if_neg (by omega), if_pos hlen]
    unfold analyze
    rw [hdec]

/-- Witness for claim C4 at a concrete truncated buffer. -/
theorem analyze_corrupt_input_fails_witness :
    0 < 1 ∧ ([] : List Nat).length < 3 * (1 * 1) ∧
    analyze (magicBytes ++ 1 :: 1 :: []) = .error (.decode .truncatedBody) :=
  ⟨by decide, by decide,
    analyze_corrupt_input_fails.2 1 1 [] (by decide) (by decide) (by decide)⟩

/-- Claim C5: every solid-color image is analyzed successfully, its edge
variance is 0, its keyword set contains "minimal", and its quality is
"blurry". -/
theorem solid_color_analysis (w h r g b : Nat) (hw : 0 < w) (hh : 0 < h) :
    decodeImage (solidBytes w h r g b) = .ok (solidImage w h r g b) ∧
    (extractStats (solidImage w h r g b)).edgeVariance = 0 ∧
    "minimal" ∈ keywordsOf (extractStats (solidImage w h r g b)) ∧
    qualityOf (extractStats (solidImage w h r g b)) = "blurry" ∧
    analyze (solidBytes w h r g b) =
      .ok ⟨keywordsOf (extractStats (solidImage w h r g b)),
           vibeOf (extractStats (solidImage w h r g b)),
           qualityOf (extractStats (solidImage w h r g b))⟩ := by
  have hdec := decodeImage_solid w h r g b hw hh
  have hev := edgeVariance_solid w h r g b
  have hflat : T_flat < (extractStats (solidImage w h r g b)).flatness := by
    have h1 : (extractStats (solidImage w h r g b)).flatness = 1 := by
      show flatnessOf (List.replicate (w * h) ⟨r, g, b⟩) = 1
      exact flatnessOf_replicate (w * h) ⟨r, g, b⟩ (Nat.mul_pos hw hh)
    rw [h1]
    unfold T_flat
    norm_num
  exact ⟨hdec, hev, minimal_mem_keywordsOf _ hflat, qualityOf_zero_edge _ hev,
    analyze_of_decode_ok hdec⟩

/-- Witness for claim C5 at a concrete one-pixel solid image. -/
theorem solid_color_analysis_witness :
    0 < 1 ∧
    (decodeImage (solidBytes 1 1 10 20 30) = .ok (solidImage 1 1 10 20 30) ∧
     (extractStats (solidImage 1 1 10 20 30)).edgeVariance = 0 ∧
     "minimal" ∈ keywordsOf (extractStats (solidImage 1 1 10 20 30)) ∧
     qualityOf (extractStats (solidImage 1 1 10 20 30)) = "blurry" ∧
     analyze (solidBytes 1 1 10 20 30) =
       .ok ⟨keywordsOf (extractStats (solidImage 1 1 10 20 30)),
            vibeOf (extractStats (solidImage 1 1 10 20 30)),
            qualityOf (extractStats (solidImage 1 1 10 20 30))⟩) :=
  ⟨by decide, solid_color_analysis 1 1 10 20 30 (by decide) (by decide)⟩

/-- Claim C6: a fully grayscale image (every pixel has equal channels,
hence zero saturation) never receives the "vibrant" keyword. -/
theorem grayscale_never_vibrant (bytes : List Nat) (img : DecodedImage)
    (res : AnalysisResult) (hdec : decodeImage bytes = .ok img)
    (hgray : ∀ p ∈ img.pixels, p.r = p.g ∧ p.g = p.b)
    (hres : analyze bytes = .ok res) :
    "vibrant" ∉ res.keywords := by
  have h2 := analyze_of_decode_ok hdec
  rw [hres] at h2
  obtain rfl := Except.ok.inj h2
  show "vibrant" ∉ keywordsOf (extractStats img)
  apply vibrant_not_mem
  rw [meanSaturation_gray img hgray]
  unfold T_vibrant
  norm_num

/-- Witness for claim C6 at a concrete one-pixel gray image. -/
theorem grayscale_never_vibrant_witness :
    decodeImage (solidBytes 1 1 5 5 5) = .ok (solidImage 1 1 5 5 5) ∧
    analyze (solidBytes 1 1 5 5 5) = .ok ⟨["minimal"], "moody", "blurry"⟩ ∧
    "vibrant" ∉ (⟨["minimal"], "moody", "blurry"⟩ : AnalysisResult).keywords := by
  refine ⟨rfl, analyze_solid_5_5_5, ?_⟩
  exact grayscale_never_vibrant (solidBytes 1 1 5 5 5) (solidImage 1 1 5 5 5)
    ⟨["minimal"], "moody", "blurry"⟩ rfl (by decide) analyze_solid_5_5_5

/-- Claim C7: the UI's display of analysis attributes is a pure projection
of the persisted `keywords`/`vibe`/`quality` fields of the post record —
any two records agreeing on those fields render identically — and the
Analyze-button flow displays only the re-fetched persisted record,
independently of whatever the analysis endpoint returned: the UI never
runs the engine or re-derives the fields itself. -/
theorem ui_reads_persisted_only (p q : Post)
    (hk : p.keywords = q.keywords) (hv : p.vibe = q.vibe) (hq : p.quality = q.quality) :
    renderPostLabels p = renderPostLabels q ∧
    ∀ (resp1 resp2 : Option (List String) × Option String × Option String)
      (reloaded : Post),
      analyzeClickLabels resp1 reloaded = analyzeClickLabels resp2 reloaded := by
  constructor
  · unfold renderPostLabels
    rw [hk, hv, hq]
  · intro _ _ _
    rfl

/-- Witness for claim C7 on two concrete posts differing only in their
non-analysis fields, and two distinct endpoint responses. -/
theorem ui_reads_persisted_only_witness :
    renderPostLabels ⟨1, "https://a.example/one.jpg", some "sunset", 10, 2, none,
        some ["warm", "bright"], some "calm", some "sharp"⟩ =
      renderPostLabels ⟨2, "https://b.example/two.jpg", none, 999, 55, some "2024-01-01",
        some ["warm", "bright"], some "calm", some "sharp"⟩ ∧
    analyzeClickLabels (some ["busy"], some "moody", some "blurry")
        ⟨3, "u", none, 0, 0, none, none, none, none⟩ =
      analyzeClickLabels (none, none, none) ⟨3, "u", none, 0, 0, none, none, none, none⟩ :=
  ⟨(ui_reads_persisted_only _ _ rfl rfl rfl).1,
   (ui_reads_persisted_only
      ⟨1, "https://a.example/one.jpg", some "sunset", 10, 2, none,
        some ["warm", "bright"], some "calm", some "sharp"⟩
      ⟨2, "https://b.example/two.jpg", none, 999, 55, some "2024-01-01",
        some ["warm", "bright"], some "calm", some "sharp"⟩ rfl rfl rfl).2 _ _ _⟩

/-- Claim C8: every successful `analyze` call returns a result whose
keywords list has at most 4 entries and whose vibe and quality strings
belong to their fixed enumerations. -/
theorem analyze_success_shape (bytes : List Nat) (res : AnalysisResult)
    (h : analyze bytes = .ok res) :
    res.keywords.length ≤ 4 ∧ res.vibe ∈ vibeEnum ∧ res.quality ∈ qualityEnum := by
  rcases hdec : decodeImage bytes with e | img
  · unfold analyze at h
    rw [hdec] at h
    exact Except.noConfusion h
  · have h2 := analyze_of_decode_ok hdec
    rw [h] at h2
    obtain rfl := Except.ok.inj h2
    exact ⟨keywordsOf_length_le _, vibeOf_mem _, qualityOf_mem _⟩

/-- Witness for claim C8 at a concrete successfully analyzed image. -/
theorem analyze_success_shape_witness :
    analyze (solidBytes 1 1 10 20 30) =
      .ok ⟨["vibrant", "minimal"], "neutral", "blurry"⟩ ∧
    (["vibrant", "minimal"] : List String).length ≤ 4 ∧
    "neutral" ∈ vibeEnum ∧ "blurry" ∈ qualityEnum :=
  ⟨analyze_solid_10_20_30,
   analyze_success_shape (solidBytes 1 1 10 20 30)
     ⟨["vibrant", "minimal"], "neutral", "blurry"⟩ analyze_solid_10_20_30⟩

/-- Claim C9: `proxyImage` is total and deterministic; it returns the
empty string for an undefined or empty input, it returns
`API_BASE ++ "/proxy-image?url=" ++ encodeURIComponent url` for every URL
containing one of the Instagram/Facebook CDN host substrings, and it
returns every other URL unchanged. -/
theorem proxyImage_behavior (apiBase u : String) :
    proxyImage apiBase none = "" ∧
    proxyImage apiBase (some "") = "" ∧
    (isProxiedHost u = true →
      proxyImage apiBase (some u) =
        apiBase ++ "/proxy-image?url=" ++ encodeURIComponent u) ∧
    (isProxiedHost u = false → proxyImage apiBase (some u) = u) := by
  refine ⟨rfl, rfl, ?_, ?_⟩
  · intro hhost
    have hne : u ≠ "" := by
      intro he
      rw [he] at hhost
      exact absurd hhost (by decide)
    show (if u = "" then "" else if isProxiedHost u = true then
      apiBase ++ "/proxy-image?url=" ++ encodeURIComponent u else u) = _
    rw [if_neg hne, if_pos hhost]
  · intro hhost
    by_cases hne : u = ""
    · rw [hne]
      rfl
    · show (if u = "" then "" else if isProxiedHost u = true then
        apiBase ++ "/proxy-image?url=" ++ encodeURIComponent u else u) = _
      rw [if_neg hne, if_neg (by simp [hhost])]

/-- Witness for claim C9 at one proxied and one non-proxied concrete URL. -/
theorem proxyImage_behavior_witness :
    isProxiedHost "https://scontent.cdninstagram.com/p.jpg" = true ∧
    proxyImage "http://localhost:8000" (some "https://scontent.cdninstagram.com/p.jpg") =
      "http://localhost:8000" ++ "/proxy-image?url=" ++
        encodeURIComponent "https://scontent.cdninstagram.com/p.jpg" ∧
    isProxiedHost "https://example.com/p.jpg" = false ∧
    proxyImage "http://localhost:8000" (some "https://example.com/p.jpg") =
      "https://example.com/p.jpg" :=
  ⟨by decide,
   (proxyImage_behavior "http://localhost:8000" "https://scontent.cdninstagram.com/p.jpg").2.2.1
     (by decide),
   by decide,
   (proxyImage_behavior "http://localhost:8000" "https://example.com/p.jpg").2.2.2
     (by decide)⟩

/-- Claim C10: for every influencer dataset, including an empty post list,
the simulated gender demographics are integer percentages with Male in
the range 40 to 70 and Male + Female exactly 100. -/
theorem demographics_gender_invariant (posts : List Post) :
    40 ≤ (genderSplit posts).1 ∧ (genderSplit posts).1 ≤ 70 ∧
    (genderSplit posts).1 + (genderSplit posts).2 = 100 := by
  have hx : 0 ≤ avgLikes posts := by
    unfold avgLikes
    positivity
  have hfl : ((⌊avgLikes posts / 30⌋ : ℤ) : ℚ) ≤ avgLikes posts / 30 := Int.floor_le _
  have hfu : avgLikes posts / 30 < (⌊avgLikes posts / 30⌋ : ℤ) + 1 := Int.lt_floor_add_one _
  have hm0 : 0 ≤ jsMod (avgLikes posts) 30 := by
    unfold jsMod
    linarith
  have hm30 : jsMod (avgLikes posts) 30 < 30 := by
    unfold jsMod
    linarith
  have hr0 : 0 ≤ jsRound (jsMod (avgLikes posts) 30) := by
    unfold jsRound
    apply Int.floor_nonneg.mpr
    linarith
  have hr30 : jsRound (jsMod (avgLikes posts) 30) ≤ 30 := by
    unfold jsRound
    have : (⌊jsMod (avgLikes posts) 30 + 1 / 2⌋ : ℤ) < 31 := by
      apply Int.floor_lt.mpr
      push_cast
      linarith
    omega
  unfold genderSplit
  refine ⟨?_, ?_, ?_⟩ <;> simp only [] <;> omega

/-- Witness for claim C10 at the empty dataset. -/
theorem demographics_gender_invariant_witness :
    40 ≤ (genderSplit []).1 ∧ (genderSplit []).1 ≤ 70 ∧
    (genderSplit []).1 + (genderSplit []).2 = 100 :=
  demographics_gender_invariant []

end InstaAnalytics
